import Mathlib

/-!
Verification of the DropOut launcher's launch pipeline against its
specification.  The Rust sources under src-tauri/src are shallowly embedded:
pure functions become Lean functions, JSON values become an inductive type,
the filesystem and the network become explicit maps, and fallible code
returns Option/Except.
-/

namespace DropOut

/-- Model of serde_json::Value.  Objects are association lists; the embedded
code only ever constructs objects with distinct keys, so first-match lookup
agrees with serde_json's map lookup. -/
inductive Json where
  | null : Json
  | bool (b : Bool) : Json
  | num (n : Int) : Json
  | str (s : String) : Json
  | arr (items : List Json) : Json
  | obj (fields : List (String × Json)) : Json

/-- First-match lookup in a JSON object, modelling serde_json::Map::get. -/
def lookupField (fields : List (String × Json)) (key : String) : Option Json :=
  match fields with
  | [] => none
  | (k, v) :: rest => if k == key then some v else lookupField rest key

/-- Whether the pattern occurs as a contiguous sublist, modelling Rust's
str::find / str::contains on the underlying characters. -/
def containsSub (pat : List Char) : List Char → Bool
  | [] => pat.isEmpty
  | c :: rest => pat.isPrefixOf (c :: rest) || containsSub pat rest

/-- Replace every non-overlapping, leftmost-first occurrence of pat by rep,
modelling Rust's str::replace.  An empty pattern matches at every position,
as in Rust.  The recursion is driven by explicit fuel so the definition is
structural; every step consumes at least one character of the subject, so
fuel equal to the subject's length (as rustReplace supplies) reproduces the
total function. -/
def replaceCore (pat rep : List Char) : Nat → List Char → List Char
  | 0, s => s
  | _ + 1, [] => if pat.isEmpty then rep else []
  | fuel + 1, c :: rest =>
    if pat.isEmpty = false ∧ pat.isPrefixOf (c :: rest) = true then
      rep ++ replaceCore pat rep fuel ((c :: rest).drop pat.length)
    else if pat.isEmpty then rep ++ c :: replaceCore pat rep fuel rest
    else c :: replaceCore pat rep fuel rest

/-- String version of replaceCore, modelling Rust's str::replace. -/
def rustReplace (s pat rep : String) : String :=
  String.mk (replaceCore pat.data rep.data s.data.length s.data)

/-- Apply a list of (placeholder, value) replacements in order, modelling the
replacement loops in start_game and parse_jvm_arguments (main.rs).  The Rust
code iterates a HashMap in unspecified order; the placeholders are pairwise
non-overlapping so the order does not affect the results proved here. -/
def applyReplacements (repl : List (String × String)) (s : String) : String :=
  repl.foldl (fun acc kv => rustReplace acc kv.1 kv.2) s

/-- Mirrors has_unresolved_placeholder in main.rs lines 50-63.  The source
finds the first occurrence of the two-character opening sequence and returns
true both when a closing brace follows and when it does not (both inner
branches return true), so it returns true exactly when the opening sequence
occurs in the string. -/
def has_unresolved_placeholder (s : String) : Bool :=
  containsSub ("$\x7b".data) s.data

/-- Rust's str::contains with a string pattern (used for the
-Djava.library.path check in main.rs line 416). -/
def containsStr (s pat : String) : Bool :=
  containsSub pat.data s.data

/-- Helper for split_whitespace: cur holds the current word reversed. -/
def splitWhitespaceAux : List Char → List Char → List String
  | [], cur => if cur.isEmpty then [] else [String.mk cur.reverse]
  | c :: rest, cur =>
    if c.isWhitespace then
      if cur.isEmpty then splitWhitespaceAux rest []
      else String.mk cur.reverse :: splitWhitespaceAux rest []
    else splitWhitespaceAux rest (c :: cur)

/-- Rust's str::split_whitespace (main.rs line 445): split on whitespace,
discarding empty pieces. -/
def split_whitespace (s : String) : List String :=
  splitWhitespaceAux s.data []

theorem replaceCore_eq_of_not_contains (pat rep : List Char) :
    ∀ (fuel : Nat) (s : List Char), containsSub pat s = false →
      replaceCore pat rep fuel s = s := by
  intro fuel
  induction fuel with
  | zero => intro s _; rfl
  | succ fuel ih =>
    intro s h
    cases s with
    | nil =>
      simp only [containsSub] at h
      simp [replaceCore, h]
    | cons c rest =>
      simp only [containsSub, Bool.or_eq_false_iff] at h
      obtain ⟨h1, h2⟩ := h
      have hne : pat.isEmpty = false := by
        cases pat with
        | nil => simp [List.isPrefixOf] at h1
        | cons a as => simp [List.isEmpty]
      rw [replaceCore]
      rw [if_neg (by simp [h1])]
      rw [if_neg (by simp [hne])]
      rw [ih rest h2]

theorem rustReplace_eq_of_not_contains (s pat rep : String)
    (h : containsSub pat.data s.data = false) : rustReplace s pat rep = s := by
  unfold rustReplace
  rw [replaceCore_eq_of_not_contains pat.data rep.data s.data.length s.data h]

/-! ## Rule evaluation (core/rules.rs, core/game_version.rs) -/

/-- OsRule from game_version.rs. -/
structure OsRule where
  name : Option String
  version : Option String
  arch : Option String
  deriving DecidableEq

/-- Rule from game_version.rs: an (action, condition) pair; features is an
arbitrary JSON value when present. -/
structure Rule where
  action : String
  os : Option OsRule
  features : Option Json

/-- rule_matches from rules.rs lines 49-74, with the running platform
(env::consts::OS in the source) passed explicitly. -/
def rule_matches (os : String) (r : Rule) : Bool :=
  if r.features.isSome then false
  else
    match r.os with
    | none => true
    | some osRule =>
      match osRule.name with
      | some osName =>
        if osName == "osx" || osName == "macos" then os == "macos"
        else if osName == "linux" then os == "linux"
        else if osName == "windows" then os == "windows"
        else false
      | none => true

/-- is_library_allowed from rules.rs lines 4-47. -/
def is_library_allowed (os : String) (rules : Option (List Rule)) : Bool :=
  match rules with
  | none => true
  | some rs =>
    if rs.isEmpty then true
    else rs.foldl (fun allowed r =>
      if rule_matches os r then r.action == "allow" else allowed) false

/-- Written from the spec's words for the rule evaluator: OS-name matching
normalizes the two accepted spellings of one operating system to a canonical
name before comparing, and a feature-gated rule never matches. -/
def normalize_os_name (n : String) : Option String :=
  if n == "osx" || n == "macos" then some "macos"
  else if n == "linux" then some "linux"
  else if n == "windows" then some "windows"
  else none

/-- Spec-side matching predicate for a rule condition (refinement target for
claim C7, written from the spec's words, not from the source). -/
def specRuleMatches (os : String) (r : Rule) : Bool :=
  r.features.isNone &&
    (match r.os with
     | none => true
     | some o =>
       match o.name with
       | none => true
       | some n =>
         match normalize_os_name n with
         | some canonical => canonical == os
         | none => false)

/-- Spec-side left-to-right fold over rules carrying a running boolean
(refinement target for claim C7, written from the spec's words). -/
def specFoldAllowed (os : String) : List Rule → Bool → Bool
  | [], acc => acc
  | r :: rest, acc =>
    specFoldAllowed os rest (if specRuleMatches os r then r.action == "allow" else acc)

/-- Spec-side rule evaluator: no rules means allowed; otherwise fold from
false (refinement target for claim C7, written from the spec's words). -/
def specIsAllowed (os : String) (rules : Option (List Rule)) : Bool :=
  match rules with
  | none => true
  | some [] => true
  | some (r :: rest) => specFoldAllowed os (r :: rest) false

/-- A rule with action allow and no condition. -/
def ruleAllowAll : Rule := { action := "allow", os := none, features := none }

/-- A rule with action disallow gated on an OS name. -/
def ruleDisallowOs (n : String) : Rule :=
  { action := "disallow", os := some { name := some n, version := none, arch := none },
    features := none }

/-! ## Maven coordinates (core/maven.rs) -/

/-- MavenCoordinate from maven.rs. -/
structure MavenCoordinate where
  group : String
  artifact : String
  version : String
  classifier : Option String
  extension : String
  deriving DecidableEq

/-- Helper for splitOnChar: cur holds the current piece reversed. -/
def splitOnCharAux (sep : Char) : List Char → List Char → List String
  | [], cur => [String.mk cur.reverse]
  | c :: rest, cur =>
    if c == sep then String.mk cur.reverse :: splitOnCharAux sep rest []
    else splitOnCharAux sep rest (c :: cur)

/-- Rust's str::split with a char pattern (empty pieces preserved), as used
by MavenCoordinate::parse (maven.rs line 59). -/
def splitOnChar (sep : Char) (s : String) : List String :=
  splitOnCharAux sep s.data []

/-- Split a character list at the last occurrence of sep, none when sep does
not occur; models str::rfind plus the surrounding slicing. -/
def splitAtLastChar (sep : Char) : List Char → Option (List Char × List Char)
  | [] => none
  | c :: rest =>
    match splitAtLastChar sep rest with
    | some (pre, post) => some (c :: pre, post)
    | none => if c == sep then some ([], rest) else none

/-- Split off the extension suffix introduced by the last at-sign, modelling
coord.rfind and the slicing in MavenCoordinate::parse (maven.rs lines
51-57); the default extension is jar. -/
def splitExtension (coord : String) : String × String :=
  match splitAtLastChar '@' coord.data with
  | some (base, ext) => (String.mk base, String.mk ext)
  | none => (coord, "jar")

/-- MavenCoordinate::parse from maven.rs lines 49-78. -/
def MavenCoordinate.parse (coord : String) : Option MavenCoordinate :=
  let pr := splitExtension coord
  match splitOnChar ':' pr.1 with
  | [g, a, v] =>
    some { group := g, artifact := a, version := v, classifier := none,
           extension := pr.2 }
  | [g, a, v, c] =>
    some { group := g, artifact := a, version := v, classifier := some c,
           extension := pr.2 }
  | _ => none

/-- MavenCoordinate::to_path from maven.rs lines 90-108. -/
def MavenCoordinate.to_path (c : MavenCoordinate) : String :=
  let group_path := rustReplace c.group "." "/"
  let filename :=
    match c.classifier with
    | some classifier =>
      c.artifact ++ "-" ++ c.version ++ "-" ++ classifier ++ "." ++ c.extension
    | none => c.artifact ++ "-" ++ c.version ++ "." ++ c.extension
  group_path ++ "/" ++ c.artifact ++ "/" ++ c.version ++ "/" ++ filename

/-- The number of colon-separated segments of the coordinate once the
extension suffix is stripped. -/
def segCount (coord : String) : Nat :=
  (splitOnChar ':' (splitExtension coord).1).length

/-! ## Version descriptors and merging (core/game_version.rs, core/version_merge.rs,
core/manifest.rs) -/

/-- DownloadArtifact from game_version.rs. -/
structure DownloadArtifact where
  sha1 : Option String
  size : Option Nat
  url : String
  path : Option String
  deriving DecidableEq

/-- Downloads from game_version.rs. -/
structure Downloads where
  client : DownloadArtifact
  server : Option DownloadArtifact
  deriving DecidableEq

/-- AssetIndex from game_version.rs. -/
structure AssetIndex where
  id : String
  sha1 : String
  size : Nat
  url : String
  total_size : Option Nat
  deriving DecidableEq

/-- LibraryDownloads from game_version.rs; classifiers is raw JSON in the
source. -/
structure LibraryDownloads where
  artifact : Option DownloadArtifact
  classifiers : Option Json

/-- Library from game_version.rs. -/
structure Library where
  downloads : Option LibraryDownloads
  name : String
  rules : Option (List Rule)
  natives : Option Json
  url : Option String

/-- Arguments from game_version.rs: raw JSON for the game and jvm templates. -/
structure Arguments where
  game : Option Json
  jvm : Option Json

/-- JavaVersion from game_version.rs. -/
structure JavaVersion where
  component : String
  major_version : Nat
  deriving DecidableEq

/-- GameVersion from game_version.rs: the version descriptor. -/
structure GameVersion where
  id : String
  downloads : Option Downloads
  asset_index : Option AssetIndex
  libraries : List Library
  main_class : String
  minecraft_arguments : Option String
  arguments : Option Arguments
  java_version : Option JavaVersion
  inherits_from : Option String
  assets : Option String
  version_type : Option String

/-- merge_json_arrays from version_merge.rs lines 75-95: parent array first,
child appended; non-arrays prefer the child. -/
def merge_json_arrays : Option Json → Option Json → Option Json
  | none, none => none
  | some p, none => some p
  | none, some c => some c
  | some p, some c =>
    match p, c with
    | Json.arr pArr, Json.arr cArr => some (Json.arr (pArr ++ cArr))
    | _, _ => some c

/-- merge_arguments from version_merge.rs lines 60-70. -/
def merge_arguments : Option Arguments → Option Arguments → Option Arguments
  | none, none => none
  | some c, none => some c
  | none, some p => some p
  | some c, some p =>
    some { game := merge_json_arrays p.game c.game,
           jvm := merge_json_arrays p.jvm c.jvm }

/-- merge_versions from version_merge.rs lines 25-54. -/
def merge_versions (child parent : GameVersion) : GameVersion :=
  let merged_libraries := child.libraries ++ parent.libraries
  let merged_arguments := merge_arguments child.arguments parent.arguments
  { id := child.id,
    downloads := child.downloads.or parent.downloads,
    asset_index := child.asset_index.or parent.asset_index,
    libraries := merged_libraries,
    main_class := child.main_class,
    minecraft_arguments := child.minecraft_arguments.or parent.minecraft_arguments,
    arguments := merged_arguments,
    java_version := child.java_version.or parent.java_version,
    inherits_from := none,
    assets := child.assets.or parent.assets,
    version_type := child.version_type.or parent.version_type }

/-- The inheritance-resolution loop shared by resolve_inheritance
(version_merge.rs lines 119-136) and load_version (manifest.rs lines
104-130): while the current descriptor names a parent, load the parent
(none models a load failure, which aborts resolution) and merge child into
parent.  The loop is given explicit fuel; the source loop terminates after
at most one merge because merge_versions clears the parent id, so any fuel
of at least two yields the source's behaviour. -/
def resolve_inheritance (loader : String → Option GameVersion) :
    Nat → GameVersion → Option GameVersion
  | 0, _ => none
  | fuel + 1, v =>
    match v.inherits_from with
    | none => some v
    | some parentId =>
      match loader parentId with
      | none => none
      | some parent => resolve_inheritance loader fuel (merge_versions v parent)

/-! ## Credentials (core/auth.rs) -/

/-- OfflineAccount from auth.rs. -/
structure OfflineAccount where
  username : String
  uuid : String

/-- MicrosoftAccount from auth.rs. -/
structure MicrosoftAccount where
  username : String
  uuid : String
  access_token : String
  refresh_token : Option String
  expires_at : Int

/-- Account from auth.rs. -/
inductive Account where
  | offline (a : OfflineAccount)
  | microsoft (a : MicrosoftAccount)

/-- Account::username from auth.rs lines 22-27. -/
def Account.username : Account → String
  | Account.offline a => a.username
  | Account.microsoft a => a.username

/-- Account::uuid from auth.rs lines 29-34. -/
def Account.uuid : Account → String
  | Account.offline a => a.uuid
  | Account.microsoft a => a.uuid

/-- Account::access_token from auth.rs lines 36-41: an offline account's
token is the literal string null. -/
def Account.access_token : Account → String
  | Account.offline _ => "null"
  | Account.microsoft a => a.access_token

/-! ## Download engine (core/downloader.rs)

The filesystem is a map from destination path to file bytes; the network is
a map from URL to the fetched body (none models a transport failure).  The
digest primitives live in external crates, so they enter the model as
parameters; verify_checksum and the engine's control flow are embedded from
the source. -/

/-- DownloadTask from downloader.rs lines 11-19. -/
structure DownloadTask where
  url : String
  path : String
  sha1 : Option String
  sha256 : Option String
  deriving DecidableEq

/-- The digest primitives compute_sha256 and compute_sha1 (downloader.rs
lines 32-44) call the external sha2/sha1 crates; they are abstracted as
parameters of the model. -/
structure HashFns where
  sha256 : List Nat → String
  sha1 : List Nat → String

/-- verify_checksum from downloader.rs lines 47-56: SHA-256 preferred,
SHA-1 fallback, no digest means valid. -/
def verify_checksum (hs : HashFns) (data : List Nat)
    (sha256 sha1 : Option String) : Bool :=
  match sha256 with
  | some expected => hs.sha256 data == expected
  | none =>
    match sha1 with
    | some expected => hs.sha1 data == expected
    | none => true

/-- GlobalProgress from downloader.rs lines 66-70 (the shared atomic
counters), with total_files fixed per invocation. -/
structure GlobalProgress where
  completed_files : Nat
  total_downloaded_bytes : Nat
  total_files : Nat
  deriving DecidableEq

/-- GlobalProgress::inc_completed from downloader.rs lines 91-98. -/
def GlobalProgress.inc_completed (g : GlobalProgress) : GlobalProgress :=
  { g with completed_files := g.completed_files + 1 }

/-- GlobalProgress::add_bytes from downloader.rs lines 101-111. -/
def GlobalProgress.add_bytes (g : GlobalProgress) (delta : Nat) : GlobalProgress :=
  { g with total_downloaded_bytes := g.total_downloaded_bytes + delta }

instance : DecidableEq (Except String Unit) := fun a b =>
  match a, b with
  | Except.ok (), Except.ok () => isTrue rfl
  | Except.error s, Except.error t =>
    if h : s = t then isTrue (h ▸ rfl)
    else isFalse (fun hc => h (Except.error.inj hc))
  | Except.ok _, Except.error _ => isFalse (fun hc => Except.noConfusion hc)
  | Except.error _, Except.ok _ => isFalse (fun hc => Except.noConfusion hc)

/-- The observable outcome of one task of download_files: its per-task
result, whether a network request was made, the destination's content
afterwards, and how much was added to the byte and completed-file
counters. -/
structure TaskOutcome where
  result : Except String Unit
  madeRequest : Bool
  fileAfter : Option (List Nat)
  bytesAdded : Nat
  completedInc : Nat
  deriving DecidableEq

/-- The fetch half of a task (downloader.rs lines 195-242): on a transport
failure the task errors with the file untouched (the destination is created
only after the response arrives); on success the body is streamed to the
destination, its bytes are added to the counter chunk by chunk, and the
task is counted complete.  No digest check happens on this path. -/
def fetchAndWrite (net : String → Option (List Nat))
    (fs : String → Option (List Nat)) (t : DownloadTask) : TaskOutcome :=
  match net t.url with
  | none =>
    { result := Except.error "Request error", madeRequest := true,
      fileAfter := fs t.path, bytesAdded := 0, completedInc := 0 }
  | some body =>
    { result := Except.ok (), madeRequest := true, fileAfter := some body,
      bytesAdded := body.length, completedInc := 1 }

/-- One task of download_files (downloader.rs lines 158-243): if the
destination exists and at least one digest was supplied and the existing
bytes verify, the fetch is skipped, the existing size is added to the byte
counter and the task is counted complete; otherwise the file is fetched. -/
def processTask (hs : HashFns) (net : String → Option (List Nat))
    (fs : String → Option (List Nat)) (t : DownloadTask) : TaskOutcome :=
  match fs t.path with
  | some data =>
    if t.sha256.isSome || t.sha1.isSome then
      if verify_checksum hs data t.sha256 t.sha1 then
        { result := Except.ok (), madeRequest := false, fileAfter := some data,
          bytesAdded := data.length, completedInc := 1 }
      else fetchAndWrite net fs t
    else fetchAndWrite net fs t
  | none => fetchAndWrite net fs t

/-- Filesystem and progress state threaded through one download_files
invocation. -/
structure EngineState where
  fs : String → Option (List Nat)
  progress : GlobalProgress

/-- Increment the completed counter the given number of times (zero for a
failed task, one for a skip or a finish). -/
def GlobalProgress.inc_completed_times (g : GlobalProgress) : Nat → GlobalProgress
  | 0 => g
  | n + 1 => (g.inc_completed_times n).inc_completed

/-- Apply one task's outcome to the engine state. -/
def stepTask (hs : HashFns) (net : String → Option (List Nat))
    (st : EngineState) (t : DownloadTask) : Except String Unit × EngineState :=
  let o := processTask hs net st.fs t
  (o.result,
    { fs := fun p => if p = t.path then o.fileAfter else st.fs p,
      progress := (st.progress.add_bytes o.bytesAdded).inc_completed_times o.completedInc })

/-- Run the tasks, collecting every task's per-task result.  The source runs
them through a bounded-concurrency fan-out with unordered completion; each
task touches only its own destination and the counters commute, so the
sequential model preserves every per-task outcome and the final counters. -/
def runTasks (hs : HashFns) (net : String → Option (List Nat)) :
    List DownloadTask → EngineState → List (Except String Unit) × EngineState
  | [], st => ([], st)
  | t :: rest, st =>
    let (r, st') := stepTask hs net st t
    let (rs, st'') := runTasks hs net rest st'
    (r :: rs, st'')

/-- download_files from downloader.rs lines 137-254: runs every task,
collects the per-task results into a vector that is then dropped, and
returns Ok unconditionally (lines 246-253). -/
def download_files (hs : HashFns) (net : String → Option (List Nat))
    (tasks : List DownloadTask) (fs0 : String → Option (List Nat)) :
    Except String Unit × EngineState :=
  let st0 : EngineState :=
    { fs := fs0,
      progress := { completed_files := 0, total_downloaded_bytes := 0,
                    total_files := tasks.length } }
  let (_results, st) := runTasks hs net tasks st0
  (Except.ok (), st)

/-- The gate in start_game (main.rs lines 341-348): the launch aborts before
argument building exactly when download_files returns an error. -/
def launch_aborts_on (r : Except String Unit) : Bool :=
  match r with
  | Except.error _ => true
  | Except.ok _ => false

/-! ## Argument building (main.rs) -/

/-- Decoding of an optional string field, modelling serde's treatment of
Option of String: absent or null is None, a string is Some, anything else is
a deserialization error. -/
def decodeOptString : Option Json → Option (Option String)
  | none => some none
  | some (Json.str s) => some (some s)
  | some Json.null => some none
  | some _ => none

/-- serde deserialization of OsRule (derived in game_version.rs). -/
def decodeOsRule : Json → Option OsRule
  | Json.obj fields => do
    let name ← decodeOptString (lookupField fields "name")
    let version ← decodeOptString (lookupField fields "version")
    let arch ← decodeOptString (lookupField fields "arch")
    some { name := name, version := version, arch := arch }
  | _ => none

/-- serde deserialization of Rule (derived in game_version.rs): action is a
required string, os an optional OsRule, features an optional arbitrary
value. -/
def decodeRule : Json → Option Rule
  | Json.obj fields => do
    let action ←
      match lookupField fields "action" with
      | some (Json.str s) => some s
      | _ => none
    let os ←
      match lookupField fields "os" with
      | none => some none
      | some Json.null => some none
      | some j => (decodeOsRule j).map some
    let features :=
      match lookupField fields "features" with
      | none => none
      | some Json.null => none
      | some v => some v
    some { action := action, os := os, features := features }
  | _ => none

/-- serde_json::from_value::<Vec<Rule>> as used in main.rs lines 470 and
634. -/
def decodeRules (j : Json) : Option (List Rule) :=
  match j with
  | Json.arr items => items.mapM decodeRule
  | _ => none

/-- The replacement table of parse_jvm_arguments (main.rs lines 613-617). -/
def jvmReplacements (natives classpath launcherVersion : String) :
    List (String × String) :=
  [("$\x7bnatives_directory\x7d", natives),
   ("$\x7bclasspath\x7d", classpath),
   ("$\x7blauncher_name\x7d", "DropOut"),
   ("$\x7blauncher_version\x7d", launcherVersion)]

/-- The replacement table of start_game's game-argument phase (main.rs lines
431-441). -/
def gameReplacements (account : Account) (versionId gameDir assetsRoot
    assetIndexId : String) : List (String × String) :=
  [("$\x7bauth_player_name\x7d", account.username),
   ("$\x7bversion_name\x7d", versionId),
   ("$\x7bgame_directory\x7d", gameDir),
   ("$\x7bassets_root\x7d", assetsRoot),
   ("$\x7bassets_index_name\x7d", assetIndexId),
   ("$\x7bauth_uuid\x7d", account.uuid),
   ("$\x7bauth_access_token\x7d", account.access_token),
   ("$\x7buser_type\x7d", "mojang"),
   ("$\x7bversion_type\x7d", "release"),
   ("$\x7buser_properties\x7d", "\x7b\x7d")]

/-- Rust's str::starts_with on the underlying characters, used for the
memory-flag filter in parse_jvm_arguments (main.rs line 628). -/
def startsWithStr (s pre : String) : Bool :=
  pre.data.isPrefixOf s.data

/-- Whether an argument sets a memory bound and is therefore skipped by
parse_jvm_arguments (main.rs lines 628, 652, 662). -/
def isMemoryArg (arg : String) : Bool :=
  startsWithStr arg "-Xmx" || startsWithStr arg "-Xms"

/-- The rule gate of a JVM-template object entry (main.rs lines 632-643): a
rule-parse failure disallows. -/
def jvmEntryAllowed (os : String) (fields : List (String × Json)) : Bool :=
  match lookupField fields "rules" with
  | none => true
  | some rulesVal =>
    match decodeRules rulesVal with
    | some rules => is_library_allowed os (some rules)
    | none => false

/-- The arguments the value of an allowed JVM-template object entry
contributes (main.rs lines 645-668). -/
def jvmEntryValueArgs (repl : List (String × String)) :
    Option Json → List String
  | some (Json.str s) =>
    let arg := applyReplacements repl s
    if isMemoryArg arg then [] else [arg]
  | some (Json.arr subs) =>
    subs.foldl (fun acc sub =>
      match sub with
      | Json.str s =>
        let arg := applyReplacements repl s
        if isMemoryArg arg then acc else acc ++ [arg]
      | _ => acc) []
  | _ => []

/-- The arguments one entry of the JVM template contributes
(parse_jvm_arguments, main.rs lines 619-671): plain strings are substituted
and kept unless they set memory bounds; object entries are rule-gated and
their string or array values are substituted and kept under the same memory
filter.  No unresolved-placeholder check happens on this path. -/
def jvmArgsOfItem (os : String) (repl : List (String × String)) :
    Json → List String
  | Json.str s =>
    let arg := applyReplacements repl s
    if isMemoryArg arg then [] else [arg]
  | Json.obj fields =>
    if jvmEntryAllowed os fields then
      jvmEntryValueArgs repl (lookupField fields "value")
    else []
  | _ => []

/-- parse_jvm_arguments from main.rs lines 607-673, returning the arguments
it appends. -/
def parse_jvm_arguments (os : String) (repl : List (String × String))
    (jvmArgs : Json) : List String :=
  match jvmArgs with
  | Json.arr items =>
    items.foldl (fun acc item => acc ++ jvmArgsOfItem os repl item) []
  | _ => []

/-- The rule gate of a game-template object entry (main.rs lines 469-479):
a rule-parse failure allows. -/
def gameEntryAllowed (os : String) (fields : List (String × Json)) : Bool :=
  match lookupField fields "rules" with
  | none => true
  | some rulesVal =>
    match decodeRules rulesVal with
    | some rules => is_library_allowed os (some rules)
    | none => true

/-- The arguments the value of an allowed game-template object entry
contributes (main.rs lines 481-506): substituted, then dropped when an
unresolved placeholder remains. -/
def gameEntryValueArgs (repl : List (String × String)) :
    Option Json → List String
  | some (Json.str s) =>
    let arg := applyReplacements repl s
    if has_unresolved_placeholder arg then [] else [arg]
  | some (Json.arr subs) =>
    subs.foldl (fun acc sub =>
      match sub with
      | Json.str s =>
        let arg := applyReplacements repl s
        if has_unresolved_placeholder arg then acc else acc ++ [arg]
      | _ => acc) []
  | _ => []

/-- The arguments one entry of the structured game template contributes
(start_game, main.rs lines 455-509): plain strings are substituted and kept
unconditionally (no unresolved-placeholder check); object entries are
rule-gated and their values filtered by gameEntryValueArgs. -/
def gameArgsOfItem (os : String) (repl : List (String × String)) :
    Json → List String
  | Json.str s => [applyReplacements repl s]
  | Json.obj fields =>
    if gameEntryAllowed os fields then
      gameEntryValueArgs repl (lookupField fields "value")
    else []
  | _ => []

/-- The structured game-argument phase of start_game (main.rs lines
452-512). -/
def gameArgsFromJson (os : String) (repl : List (String × String))
    (gameJson : Json) : List String :=
  match gameJson with
  | Json.arr items =>
    items.foldl (fun acc item => acc ++ gameArgsOfItem os repl item) []
  | _ => []

/-- The legacy game-argument phase of start_game (main.rs lines 443-451):
split on whitespace, substitute, and push every token with no
unresolved-placeholder check. -/
def legacyGameArgs (repl : List (String × String)) (mcArgs : String) :
    List String :=
  (split_whitespace mcArgs).map (fun part => applyReplacements repl part)

/-- The game-argument phase of start_game (main.rs lines 443-512): the
legacy string wins when present, else the structured template's game
array. -/
def buildGameArgs (os : String) (repl : List (String × String))
    (minecraftArguments : Option String) (arguments : Option Arguments) :
    List String :=
  match minecraftArguments with
  | some legacy => legacyGameArgs repl legacy
  | none =>
    match arguments with
    | some a =>
      match a.game with
      | some g => gameArgsFromJson os repl g
      | none => []
    | none => []

/-- The full argument vector assembled by start_game (main.rs lines
399-512): template JVM arguments, memory bounds, the native-library-path
flag if absent, the classpath flag if absent, the main class, then game
arguments. -/
def assemble_args (os : String) (maxMemory minMemory : Nat)
    (natives classpath launcherVersion : String) (vd : GameVersion)
    (gameRepl : List (String × String)) : List String :=
  let jvmRepl := jvmReplacements natives classpath launcherVersion
  let args0 : List String :=
    match vd.arguments with
    | some a =>
      match a.jvm with
      | some j => parse_jvm_arguments os jvmRepl j
      | none => []
    | none => []
  let args1 := args0 ++
    ["-Xmx" ++ toString maxMemory ++ "M", "-Xms" ++ toString minMemory ++ "M"]
  let args2 :=
    if args1.any (fun a => containsStr a "-Djava.library.path") then args1
    else args1 ++ ["-Djava.library.path=" ++ natives]
  let args3 :=
    if args2.any (fun a => a == "-cp" || a == "-classpath") then args2
    else args2 ++ ["-cp", classpath]
  (args3 ++ [vd.main_class]) ++
    buildGameArgs os gameRepl vd.minecraft_arguments vd.arguments

/-! ## Concrete fixtures for witnesses and counterexamples -/

/-- A filesystem with no files. -/
def fsEmpty : String → Option (List Nat) := fun _ => none

/-- Concrete digest functions: the SHA-1 slot recognises the byte string
[1]. -/
def hsFix : HashFns :=
  { sha256 := fun _ => "s256",
    sha1 := fun data => if data = [1] then "h1" else "hx" }

/-- A network on which every URL serves the body [2]. -/
def netTwo : String → Option (List Nat) := fun _ => some [2]

/-- A network on which every URL serves the body [9]. -/
def netNine : String → Option (List Nat) := fun _ => some [9]

/-- A network on which the URL bad fails and every other URL serves [5]. -/
def netPartial : String → Option (List Nat) :=
  fun u => if u == "bad" then none else some [5]

/-- A task carrying a SHA-1 digest that the body served by netTwo does not
match. -/
def taskMismatch : DownloadTask :=
  { url := "u", path := "p", sha1 := some "h1", sha256 := none }

/-- A task carrying no digest at all. -/
def taskNoDigest : DownloadTask :=
  { url := "u", path := "p", sha1 := none, sha256 := none }

/-- A filesystem on which taskNoDigest's destination already holds [7]. -/
def fsSeven : String → Option (List Nat) :=
  fun p => if p = "p" then some [7] else none

/-- A task whose URL fails on netPartial. -/
def taskBad : DownloadTask :=
  { url := "bad", path := "pb", sha1 := none, sha256 := none }

/-- A sibling task whose URL succeeds on netPartial. -/
def taskGood : DownloadTask :=
  { url := "good", path := "pg", sha1 := none, sha256 := none }

/-- The client jar artifact used by the version fixtures. -/
def clientArtifact : DownloadArtifact :=
  { sha1 := some "abc", size := some 10,
    url := "https://example.com/client.jar", path := none }

/-- A self-contained grandparent version supplying the download artifacts
and the asset index. -/
def gvBase : GameVersion :=
  { id := "base",
    downloads := some { client := clientArtifact, server := none },
    asset_index := some { id := "idx", sha1 := "s", size := 1, url := "u",
                          total_size := none },
    libraries := [], main_class := "BaseMain", minecraft_arguments := none,
    arguments := none, java_version := none, inherits_from := none,
    assets := none, version_type := some "release" }

/-- A middle version inheriting from gvBase and supplying neither downloads
nor an asset index. -/
def gvMid : GameVersion :=
  { id := "mid", downloads := none, asset_index := none, libraries := [],
    main_class := "MidMain", minecraft_arguments := none, arguments := none,
    java_version := none, inherits_from := some "base", assets := none,
    version_type := none }

/-- A child version inheriting from gvMid: a depth-two inheritance chain. -/
def gvChild : GameVersion :=
  { id := "child", downloads := none, asset_index := none, libraries := [],
    main_class := "ChildMain", minecraft_arguments := none, arguments := none,
    java_version := none, inherits_from := some "mid", assets := none,
    version_type := none }

/-- A loader serving exactly the chain gvChild, gvMid and gvBase. -/
def loaderChain : String → Option GameVersion :=
  fun pid =>
    if pid == "mid" then some gvMid
    else if pid == "base" then some gvBase
    else none

/-- A library named A. -/
def libA : Library :=
  { downloads := none, name := "A", rules := none, natives := none, url := none }

/-- A library named B. -/
def libB : Library :=
  { downloads := none, name := "B", rules := none, natives := none, url := none }

/-- A child version with one library, argument arrays and a parent id, used
to witness the merge claim. -/
def childFix : GameVersion :=
  { id := "fabric", downloads := none, asset_index := none,
    libraries := [libA], main_class := "M", minecraft_arguments := none,
    arguments := some { game := some (Json.arr [Json.str "cg"]),
                        jvm := some (Json.arr [Json.str "cj"]) },
    java_version := none, inherits_from := some "1.20", assets := none,
    version_type := none }

/-- A parent version with one library, argument arrays and downloads, used
to witness the merge claim. -/
def parentFix : GameVersion :=
  { id := "1.20",
    downloads := some { client := clientArtifact, server := none },
    asset_index := none, libraries := [libB], main_class := "N",
    minecraft_arguments := none,
    arguments := some { game := some (Json.arr [Json.str "pg"]),
                        jvm := some (Json.arr [Json.str "pj"]) },
    java_version := none, inherits_from := none, assets := none,
    version_type := some "release" }

/-- A concrete offline account. -/
def offAcct : Account := Account.offline { username := "alice", uuid := "uid" }

/-- The game replacement table for offAcct with concrete paths. -/
def gameReplFix : List (String × String) :=
  gameReplacements offAcct "1.20" "/g" "/a" "idx"

/-- A version whose structured JVM and game templates each contain a plain
string entry with a placeholder no replacement table defines. -/
def vdUnresolved : GameVersion :=
  { id := "v", downloads := none, asset_index := none, libraries := [],
    main_class := "Main", minecraft_arguments := none,
    arguments := some
      { game := some (Json.arr [Json.str "$\x7bundefined_game\x7d"]),
        jvm := some (Json.arr [Json.str "$\x7bundefined_jvm\x7d"]) },
    java_version := none, inherits_from := none, assets := none,
    version_type := none }

/-- A version whose legacy argument string contains a placeholder no
replacement table defines. -/
def vdLegacy : GameVersion :=
  { id := "v", downloads := none, asset_index := none, libraries := [],
    main_class := "Main",
    minecraft_arguments := some "--token $\x7bundefined_token\x7d",
    arguments := none, java_version := none, inherits_from := none,
    assets := none, version_type := none }

/-- Whether a JSON value is an object. -/
def isObjJson : Json → Bool
  | Json.obj _ => true
  | _ => false

/-- A filesystem on which path p already holds [1], the bytes hsFix's SHA-1
recognises. -/
def fsOne : String → Option (List Nat) :=
  fun p => if p = "p" then some [1] else none

/-- A task whose SHA-1 digest matches the existing file on fsOne under
hsFix. -/
def taskMatch : DownloadTask :=
  { url := "u", path := "p", sha1 := some "h1", sha256 := none }

/-! ## Helper lemmas -/

theorem rule_matches_eq_spec (os : String) (r : Rule) :
    rule_matches os r = specRuleMatches os r := by
  rcases r with ⟨action, osr, feats⟩
  cases feats with
  | some f => simp [rule_matches, specRuleMatches]
  | none =>
    cases osr with
    | none => simp [rule_matches, specRuleMatches]
    | some o =>
      cases hn : o.name with
      | none => simp [rule_matches, specRuleMatches, hn]
      | some n =>
        simp only [rule_matches, specRuleMatches, normalize_os_name, hn,
          Option.isSome_none, Bool.false_eq_true, if_false, Option.isNone_none,
          Bool.true_and]
        by_cases h1 : (n == "osx" || n == "macos") = true
        · simp [h1, eq_comm]
        · by_cases h2 : (n == "linux") = true
          · simp [h1, h2, eq_comm]
          · by_cases h3 : (n == "windows") = true
            · simp [h1, h2, h3, eq_comm]
            · simp [h1, h2, h3]

theorem foldl_allowed_eq_specFold (os : String) :
    ∀ (rs : List Rule) (acc : Bool),
      rs.foldl (fun allowed r =>
          if rule_matches os r then r.action == "allow" else allowed) acc
        = specFoldAllowed os rs acc := by
  intro rs
  induction rs with
  | nil => intro acc; rfl
  | cons r rest ih =>
    intro acc
    rw [List.foldl_cons, specFoldAllowed, ih, rule_matches_eq_spec]

/-! ## Claims -/

/-- Claim C7: is_library_allowed is true for None and for an empty list; a
non-empty list is folded left to right from false, each matching rule
setting the result to whether its action is allow and unmatched rules
(feature-gated ones never match) leaving it unchanged, with no
short-circuiting — so allow-all followed by disallow-on-A is true on every
platform except A and false on A, including through the osx alias. -/
theorem claim_C7_rule_evaluation :
    (∀ (os : String) (rules : Option (List Rule)),
        is_library_allowed os rules = specIsAllowed os rules) ∧
    (∀ os : String,
        is_library_allowed os (some [ruleAllowAll, ruleDisallowOs "linux"])
          = !(os == "linux")) ∧
    (∀ os : String,
        is_library_allowed os (some [ruleAllowAll, ruleDisallowOs "osx"])
          = !(os == "macos")) := by
  refine ⟨?_, ?_, ?_⟩
  · intro os rules
    cases rules with
    | none => rfl
    | some rs =>
      cases rs with
      | nil => rfl
      | cons r rest =>
        simp only [is_library_allowed, specIsAllowed, List.isEmpty_cons,
          Bool.false_eq_true, if_false]
        exact foldl_allowed_eq_specFold os (r :: rest) false
  · intro os
    by_cases h : os = "linux" <;>
      simp [is_library_allowed, ruleAllowAll, ruleDisallowOs, rule_matches, h]
  · intro os
    by_cases h : os = "macos" <;>
      simp [is_library_allowed, ruleAllowAll, ruleDisallowOs, rule_matches, h]

/-- Claim C9: MavenCoordinate::parse accepts exactly three or four
colon-separated segments with an optional trailing extension suffix
defaulting to jar and rejects every other segment count, and to_path lays
the artifact out as group-with-dots-as-slashes, artifact, version, then
artifact-version[-classifier].extension. -/
theorem claim_C9_maven :
    MavenCoordinate.parse "g.a:artifact:1.0"
      = some { group := "g.a", artifact := "artifact", version := "1.0",
               classifier := none, extension := "jar" } ∧
    MavenCoordinate.parse "g:a:1.0:cls@zip"
      = some { group := "g", artifact := "a", version := "1.0",
               classifier := some "cls", extension := "zip" } ∧
    (MavenCoordinate.parse "net.x:y:1.0").map MavenCoordinate.to_path
      = some "net/x/y/1.0/y-1.0.jar" ∧
    (∀ coord : String,
        (MavenCoordinate.parse coord).isSome
          = (segCount coord == 3 || segCount coord == 4)) := by
  refine ⟨by decide, by decide, by decide, ?_⟩
  intro coord
  unfold MavenCoordinate.parse segCount
  rcases hl : splitOnChar ':' (splitExtension coord).1
    with _ | ⟨a, _ | ⟨b, _ | ⟨c, _ | ⟨d, _ | rest⟩⟩⟩⟩ <;>
    simp [hl]

/-- Claim C6: merge_versions keeps the child's main class, concatenates
libraries child-first, takes downloads, asset index and required runtime
from the child when present else the parent, concatenates both argument
arrays parent-first per category, and clears the parent id. -/
theorem claim_C6_merge_versions (c p : GameVersion) (cg cj pg pj : List Json)
    (hc : c.arguments = some { game := some (Json.arr cg),
                               jvm := some (Json.arr cj) })
    (hp : p.arguments = some { game := some (Json.arr pg),
                               jvm := some (Json.arr pj) }) :
    (merge_versions c p).main_class = c.main_class ∧
    (merge_versions c p).libraries = c.libraries ++ p.libraries ∧
    (merge_versions c p).downloads
      = (match c.downloads with
         | some d => some d
         | none => p.downloads) ∧
    (merge_versions c p).asset_index
      = (match c.asset_index with
         | some a => some a
         | none => p.asset_index) ∧
    (merge_versions c p).java_version
      = (match c.java_version with
         | some j => some j
         | none => p.java_version) ∧
    (merge_versions c p).arguments
      = some { game := some (Json.arr (pg ++ cg)),
               jvm := some (Json.arr (pj ++ cj)) } ∧
    (merge_versions c p).inherits_from = none := by
  refine ⟨rfl, rfl, ?_, ?_, ?_, ?_, rfl⟩
  · cases hd : c.downloads <;> simp [merge_versions, Option.or, hd]
  · cases ha : c.asset_index <;> simp [merge_versions, Option.or, ha]
  · cases hj : c.java_version <;> simp [merge_versions, Option.or, hj]
  · simp [merge_versions, merge_arguments, merge_json_arrays, hc, hp]

/-- Witness for claim C6 at the concrete child and parent fixtures. -/
theorem claim_C6_merge_versions_witness :
    (merge_versions childFix parentFix).main_class = childFix.main_class ∧
    (merge_versions childFix parentFix).libraries
      = childFix.libraries ++ parentFix.libraries ∧
    (merge_versions childFix parentFix).downloads
      = (match childFix.downloads with
         | some d => some d
         | none => parentFix.downloads) ∧
    (merge_versions childFix parentFix).asset_index
      = (match childFix.asset_index with
         | some a => some a
         | none => parentFix.asset_index) ∧
    (merge_versions childFix parentFix).java_version
      = (match childFix.java_version with
         | some j => some j
         | none => parentFix.java_version) ∧
    (merge_versions childFix parentFix).arguments
      = some { game := some (Json.arr ([Json.str "pg"] ++ [Json.str "cg"])),
               jvm := some (Json.arr ([Json.str "pj"] ++ [Json.str "cj"])) } ∧
    (merge_versions childFix parentFix).inherits_from = none :=
  claim_C6_merge_versions childFix parentFix
    [Json.str "cg"] [Json.str "cj"] [Json.str "pg"] [Json.str "pj"] rfl rfl

/-- Claim C4: on the depth-two chain gvChild inheriting from gvMid
inheriting from gvBase, the resolution loop stops after one merge because
merge_versions clears the parent id, so although the resolved descriptor
has no parent id, the grandparent's download artifacts and asset index are
never merged in: the resolved descriptor's downloads and asset index are
empty even though gvBase supplies both. -/
theorem claim_C4_grandparent_fields_lost :
    (resolve_inheritance loaderChain 5 gvChild).map GameVersion.inherits_from
      = some none ∧
    (resolve_inheritance loaderChain 5 gvChild).map GameVersion.downloads
      = some none ∧
    (resolve_inheritance loaderChain 5 gvChild).map GameVersion.asset_index
      = some none ∧
    gvBase.downloads.isSome = true ∧
    gvBase.asset_index.isSome = true ∧
    gvChild.inherits_from = some "mid" ∧
    gvMid.inherits_from = some "base" :=
  ⟨rfl, rfl, rfl, rfl, rfl, rfl, rfl⟩

/-- Counterexample to claim C2: taskMismatch carries a SHA-1 digest, its
destination is absent, and the fetched body [2] does not match the digest,
yet the engine makes no post-fetch verification: the task ends Ok, the
mismatching bytes are kept on disk, and the task is counted complete. -/
theorem claim_C2_counterexample :
    verify_checksum hsFix [2] none (some "h1") = false ∧
    fsEmpty taskMismatch.path = none ∧
    processTask hsFix netTwo fsEmpty taskMismatch
      = { result := Except.ok (), madeRequest := true, fileAfter := some [2],
          bytesAdded := 1, completedInc := 1 } :=
  ⟨rfl, rfl, rfl⟩

/-- Claim C2 amended: digest verification happens only for a pre-existing
destination before the fetch decision; whenever the destination is absent
and the fetch succeeds, the fetched bytes are written and the task counted
complete with no digest check, whatever digest the task carries. -/
theorem claim_C2_no_post_fetch_verification (hs : HashFns)
    (net fs : String → Option (List Nat)) (t : DownloadTask)
    (body : List Nat) (hfs : fs t.path = none) (hnet : net t.url = some body) :
    processTask hs net fs t
      = { result := Except.ok (), madeRequest := true, fileAfter := some body,
          bytesAdded := body.length, completedInc := 1 } := by
  simp [processTask, fetchAndWrite, hfs, hnet]

/-- Witness for the amended claim C2 at the concrete fixtures. -/
theorem claim_C2_no_post_fetch_verification_witness :
    processTask hsFix netTwo fsEmpty taskMismatch
      = { result := Except.ok (), madeRequest := true, fileAfter := some [2],
          bytesAdded := 1, completedInc := 1 } :=
  claim_C2_no_post_fetch_verification hsFix netTwo fsEmpty taskMismatch [2]
    rfl rfl

/-- Counterexample to claim C5: taskNoDigest's destination already exists
(holding [7]) and the task carries no digest, yet the engine performs the
network fetch and overwrites the file with the fetched body [9] instead of
skipping. -/
theorem claim_C5_counterexample :
    fsSeven taskNoDigest.path = some [7] ∧
    taskNoDigest.sha256 = none ∧
    taskNoDigest.sha1 = none ∧
    processTask hsFix netNine fsSeven taskNoDigest
      = { result := Except.ok (), madeRequest := true, fileAfter := some [9],
          bytesAdded := 1, completedInc := 1 } :=
  ⟨rfl, rfl, rfl, rfl⟩

/-- Claim C5 amended: a task carrying no digest always performs the network
fetch, even when its destination already exists; the existing-file skip
applies only when at least one digest was supplied and matches.  (Only
verify_checksum treats the absence of digests as valid; the engine never
consults it on a digestless task.) -/
theorem claim_C5_no_digest_refetches (hs : HashFns)
    (net fs : String → Option (List Nat)) (t : DownloadTask) (body : List Nat)
    (h256 : t.sha256 = none) (h1 : t.sha1 = none)
    (hnet : net t.url = some body) :
    verify_checksum hs [] t.sha256 t.sha1 = true ∧
    processTask hs net fs t
      = { result := Except.ok (), madeRequest := true, fileAfter := some body,
          bytesAdded := body.length, completedInc := 1 } := by
  constructor
  · simp [verify_checksum, h256, h1]
  · unfold processTask
    cases hfs : fs t.path with
    | none => simp [fetchAndWrite, hnet]
    | some data => simp [h256, h1, fetchAndWrite, hnet]

/-- Witness for the amended claim C5 at the concrete fixtures. -/
theorem claim_C5_no_digest_refetches_witness :
    verify_checksum hsFix [] taskNoDigest.sha256 taskNoDigest.sha1 = true ∧
    processTask hsFix netNine fsSeven taskNoDigest
      = { result := Except.ok (), madeRequest := true, fileAfter := some [9],
          bytesAdded := 1, completedInc := 1 } :=
  claim_C5_no_digest_refetches hsFix netNine fsSeven taskNoDigest [9]
    rfl rfl rfl

/-- Claim C8: when the destination already exists, a digest was supplied and
the existing bytes verify, the engine makes no network request, still adds
the existing file's size to the total-transferred counter, and increments
the completed-files counter exactly once. -/
theorem claim_C8_matching_file_skips (hs : HashFns)
    (net fs : String → Option (List Nat)) (t : DownloadTask) (data : List Nat)
    (hfs : fs t.path = some data)
    (hdig : (t.sha256.isSome || t.sha1.isSome) = true)
    (hver : verify_checksum hs data t.sha256 t.sha1 = true) :
    processTask hs net fs t
      = { result := Except.ok (), madeRequest := false, fileAfter := some data,
          bytesAdded := data.length, completedInc := 1 } ∧
    (∀ st : EngineState, st.fs = fs →
        (stepTask hs net st t).2.progress
          = { completed_files := st.progress.completed_files + 1,
              total_downloaded_bytes :=
                st.progress.total_downloaded_bytes + data.length,
              total_files := st.progress.total_files }) := by
  have hpt : processTask hs net fs t
      = { result := Except.ok (), madeRequest := false, fileAfter := some data,
          bytesAdded := data.length, completedInc := 1 } := by
    simp [processTask, hfs, hdig, hver]
  refine ⟨hpt, ?_⟩
  intro st hst
  simp [stepTask, hst, hpt, GlobalProgress.add_bytes,
    GlobalProgress.inc_completed_times, GlobalProgress.inc_completed]

/-- Witness for claim C8 at the concrete fixtures. -/
theorem claim_C8_matching_file_skips_witness :
    processTask hsFix netTwo fsOne taskMatch
      = { result := Except.ok (), madeRequest := false, fileAfter := some [1],
          bytesAdded := 1, completedInc := 1 } ∧
    (∀ st : EngineState, st.fs = fsOne →
        (stepTask hsFix netTwo st taskMatch).2.progress
          = { completed_files := st.progress.completed_files + 1,
              total_downloaded_bytes := st.progress.total_downloaded_bytes + 1,
              total_files := st.progress.total_files }) :=
  claim_C8_matching_file_skips hsFix netTwo fsOne taskMatch [1] rfl rfl rfl

/-- Counterexample to claim C3: on the task list [taskBad, taskGood] over
netPartial, taskBad fails terminally (its per-task result is an error), yet
download_files returns Ok, so the start_game gate does not abort and the
launch proceeds to argument building. -/
theorem claim_C3_counterexample :
    (runTasks hsFix netPartial [taskBad, taskGood]
        { fs := fsEmpty,
          progress := { completed_files := 0, total_downloaded_bytes := 0,
                        total_files := 2 } }).1
      = [Except.error "Request error", Except.ok ()] ∧
    (download_files hsFix netPartial [taskBad, taskGood] fsEmpty).1
      = Except.ok () ∧
    launch_aborts_on
        (download_files hsFix netPartial [taskBad, taskGood] fsEmpty).1
      = false :=
  ⟨rfl, rfl, rfl⟩

/-- Claim C3 amended: one task's failure does not cancel sibling tasks —
every task runs to completion or terminal failure and its per-task result
is collected — but download_files then drops the collected results and
returns Ok unconditionally, so the launch never aborts on a failed
download task. -/
theorem claim_C3_failures_collected_not_surfaced (hs : HashFns)
    (net fs0 : String → Option (List Nat)) (tasks : List DownloadTask) :
    (download_files hs net tasks fs0).1 = Except.ok () ∧
    launch_aborts_on (download_files hs net tasks fs0).1 = false ∧
    (∀ st : EngineState, (runTasks hs net tasks st).1.length = tasks.length) := by
  refine ⟨rfl, rfl, ?_⟩
  intro st
  induction tasks generalizing st with
  | nil => rfl
  | cons t rest ih =>
    simp only [runTasks, List.length_cons]
    simpa using ih (stepTask hs net st t).2

/-- Claim C10: every offline account's access_token is the literal string
null, and start_game's replacement table therefore substitutes null for the
access-token placeholder, whatever the account's username and uuid and
whatever the other runtime values are. -/
theorem claim_C10_offline_access_token (username uuid versionId gameDir
    assetsRoot assetIndexId : String) :
    (Account.offline { username := username, uuid := uuid }).access_token
      = "null" ∧
    applyReplacements
        (gameReplacements (Account.offline { username := username, uuid := uuid })
          versionId gameDir assetsRoot assetIndexId)
        "$\x7bauth_access_token\x7d"
      = "null" := by
  refine ⟨rfl, ?_⟩
  simp only [gameReplacements, applyReplacements, List.foldl_cons,
    List.foldl_nil, Account.username, Account.uuid, Account.access_token]
  rw [rustReplace_eq_of_not_contains "$\x7bauth_access_token\x7d"
    "$\x7bauth_player_name\x7d" username (by decide)]
  rw [rustReplace_eq_of_not_contains "$\x7bauth_access_token\x7d"
    "$\x7bversion_name\x7d" versionId (by decide)]
  rw [rustReplace_eq_of_not_contains "$\x7bauth_access_token\x7d"
    "$\x7bgame_directory\x7d" gameDir (by decide)]
  rw [rustReplace_eq_of_not_contains "$\x7bauth_access_token\x7d"
    "$\x7bassets_root\x7d" assetsRoot (by decide)]
  rw [rustReplace_eq_of_not_contains "$\x7bauth_access_token\x7d"
    "$\x7bassets_index_name\x7d" assetIndexId (by decide)]
  rw [rustReplace_eq_of_not_contains "$\x7bauth_access_token\x7d"
    "$\x7bauth_uuid\x7d" uuid (by decide)]
  decide

theorem mem_gameArgs_subs_fold (repl : List (String × String))
    (subs : List Json) :
    ∀ (acc : List String) (a : String),
      a ∈ subs.foldl (fun acc sub =>
          match sub with
          | Json.str s =>
            let arg := applyReplacements repl s
            if has_unresolved_placeholder arg then acc else acc ++ [arg]
          | _ => acc) acc →
      a ∈ acc ∨ has_unresolved_placeholder a = false := by
  induction subs with
  | nil => intro acc a h; exact Or.inl h
  | cons sub rest ih =>
    intro acc a h
    rw [List.foldl_cons] at h
    rcases ih _ a h with hacc | hres
    · cases sub with
      | str s =>
        simp only at hacc
        by_cases hu : has_unresolved_placeholder (applyReplacements repl s) = true
        · rw [if_pos hu] at hacc
          exact Or.inl hacc
        · rw [if_neg hu, List.mem_append] at hacc
          rcases hacc with h1 | h2
          · exact Or.inl h1
          · rw [List.mem_singleton] at h2
            subst h2
            exact Or.inr (by simpa using hu)
      | null => exact Or.inl hacc
      | bool b => exact Or.inl hacc
      | num n => exact Or.inl hacc
      | arr l => exact Or.inl hacc
      | obj f => exact Or.inl hacc
    · exact Or.inr hres

theorem mem_gameEntryValueArgs (repl : List (String × String))
    (v : Option Json) (a : String) (h : a ∈ gameEntryValueArgs repl v) :
    has_unresolved_placeholder a = false := by
  cases v with
  | none => simp [gameEntryValueArgs] at h
  | some j =>
    cases j with
    | str s =>
      simp only [gameEntryValueArgs] at h
      by_cases hu : has_unresolved_placeholder (applyReplacements repl s) = true
      · rw [if_pos hu] at h; cases h
      · rw [if_neg hu, List.mem_singleton] at h
        subst h
        simpa using hu
    | arr subs =>
      simp only [gameEntryValueArgs] at h
      rcases mem_gameArgs_subs_fold repl subs [] a h with hacc | hres
      · cases hacc
      · exact hres
    | null => simp [gameEntryValueArgs] at h
    | bool b => simp [gameEntryValueArgs] at h
    | num n => simp [gameEntryValueArgs] at h
    | obj f2 => simp [gameEntryValueArgs] at h

theorem mem_gameArgsOfItem_obj (os : String) (repl : List (String × String))
    (fields : List (String × Json)) (a : String)
    (h : a ∈ gameArgsOfItem os repl (Json.obj fields)) :
    has_unresolved_placeholder a = false := by
  simp only [gameArgsOfItem] at h
  by_cases hallow : gameEntryAllowed os fields = true
  · rw [if_pos hallow] at h
    exact mem_gameEntryValueArgs repl (lookupField fields "value") a h
  · rw [if_neg hallow] at h
    cases h

theorem mem_foldl_append_args (g : Json → List String) (items : List Json) :
    ∀ (acc : List String) (a : String),
      a ∈ items.foldl (fun acc item => acc ++ g item) acc →
      a ∈ acc ∨ ∃ item ∈ items, a ∈ g item := by
  induction items with
  | nil => intro acc a h; exact Or.inl h
  | cons item rest ih =>
    intro acc a h
    rw [List.foldl_cons] at h
    rcases ih _ a h with hacc | ⟨it, hit, hmem⟩
    · rw [List.mem_append] at hacc
      rcases hacc with h1 | h2
      · exact Or.inl h1
      · exact Or.inr ⟨item, List.mem_cons_self item rest, h2⟩
    · exact Or.inr ⟨it, List.mem_cons_of_mem item hit, hmem⟩

/-- Claim C1 amended: the unresolved-placeholder drop applies only to
object entries of the structured game template — every argument such an
entry contributes is free of unresolved placeholders — while plain string
entries of the game template, legacy whitespace-delimited arguments and all
JVM-template arguments are passed through even when an unresolved
placeholder remains (see the counterexample). -/
theorem claim_C1_object_game_entries_filtered (os : String)
    (repl : List (String × String)) (items : List Json)
    (hobj : ∀ item ∈ items, isObjJson item = true) :
    ∀ a ∈ gameArgsFromJson os repl (Json.arr items),
      has_unresolved_placeholder a = false := by
  intro a ha
  unfold gameArgsFromJson at ha
  rcases mem_foldl_append_args (gameArgsOfItem os repl) items [] a ha with
    hacc | ⟨item, hit, hmem⟩
  · cases hacc
  · cases item with
    | obj fields => exact mem_gameArgsOfItem_obj os repl fields a hmem
    | null => simpa [isObjJson] using hobj _ hit
    | bool b => simpa [isObjJson] using hobj _ hit
    | num n => simpa [isObjJson] using hobj _ hit
    | str s => simpa [isObjJson] using hobj _ hit
    | arr l => simpa [isObjJson] using hobj _ hit

/-- Witness for the amended claim C1: a structured game template consisting
of one object entry whose value still contains an unresolved placeholder
contributes no argument with an unresolved placeholder. -/
theorem claim_C1_object_game_entries_filtered_witness :
    (∀ item ∈ [Json.obj [("value", Json.str "$\x7bundefined\x7d")]],
        isObjJson item = true) ∧
    (∀ a ∈ gameArgsFromJson "linux" gameReplFix
        (Json.arr [Json.obj [("value", Json.str "$\x7bundefined\x7d")]]),
      has_unresolved_placeholder a = false) :=
  ⟨by decide,
   claim_C1_object_game_entries_filtered "linux" gameReplFix
     [Json.obj [("value", Json.str "$\x7bundefined\x7d")]] (by decide)⟩

/-- Counterexample to claim C1: a plain string JVM-template entry, a plain
string game-template entry and a legacy argument token whose placeholder no
replacement resolves all appear verbatim in the final argument vector
assembled by start_game. -/
theorem claim_C1_counterexample :
    has_unresolved_placeholder "$\x7bundefined_jvm\x7d" = true ∧
    "$\x7bundefined_jvm\x7d"
      ∈ assemble_args "linux" 4096 1024 "/n" "/cp" "1.0" vdUnresolved
          gameReplFix ∧
    has_unresolved_placeholder "$\x7bundefined_game\x7d" = true ∧
    "$\x7bundefined_game\x7d"
      ∈ assemble_args "linux" 4096 1024 "/n" "/cp" "1.0" vdUnresolved
          gameReplFix ∧
    has_unresolved_placeholder "$\x7bundefined_token\x7d" = true ∧
    "$\x7bundefined_token\x7d"
      ∈ assemble_args "linux" 4096 1024 "/n" "/cp" "1.0" vdLegacy
          gameReplFix := by
  decide

end DropOut
